import Mathlib

/-
Verification of the mistral-ocr-parser repository.

Shallow embedding of the Python source:
  - src/mistral_ocr/image.py   (generate_image_description, structured_ocr)
  - src/mistral_ocr/parser.py  (MistralOCRParser.__init__, _generate_markdown)
  - src/mistral_ocr/utils.py   (batch_process_pdfs)

Python dictionaries parsed from JSON are modelled as association lists of
string keys to `JValue`s; Python exceptions are modelled with `Except PyErr`;
remote API calls are modelled as oracle parameters describing their outcome.
-/

namespace MistralOCR

/-- A Python value as produced by `json.loads` (or supplied by a mock):
None, bool, int, str, list, dict. -/
inductive JValue : Type
  | null : JValue
  | bool (b : Bool) : JValue
  | num (n : Int) : JValue
  | str (s : String) : JValue
  | arr (xs : List JValue) : JValue
  | obj (fields : List (String × JValue)) : JValue

/-- A Python dict with string keys, in insertion order. -/
abbrev JObj := List (String × JValue)

/-- Python `d[key]` read on a dict / `key in d`: the first binding of `key`. -/
def lookupKey : JObj → String → Option JValue
  | [], _ => none
  | (k, v) :: rest, key => if k = key then some v else lookupKey rest key

/-- Python `d[key] = val` on a dict: overwrite in place, or append a new
binding at the end. -/
def setKey : JObj → String → JValue → JObj
  | [], key, val => [(key, val)]
  | (k, v) :: rest, key, val =>
      if k = key then (k, val) :: rest else (k, v) :: setKey rest key val

/-- Python truthiness of a value (`if x:`). -/
def pyTruthy : JValue → Bool
  | .null => false
  | .bool b => b
  | .num n => n != 0
  | .str s => s != ""
  | .arr xs => !xs.isEmpty
  | .obj fs => !fs.isEmpty

/-- Substring containment, as Python `pat in s` on strings (for a fixed
non-empty pattern): `s.splitOn pat` has more than one part iff `pat` occurs. -/
def strContains (s pat : String) : Bool :=
  decide (1 < (s.splitOn pat).length)

/-- Python `key == elem` between a str and an arbitrary value: only str
values can compare equal. -/
def pyStrEq (key : String) : JValue → Bool
  | .str s => key = s
  | _ => false

/-- The Python exception classes this code distinguishes. `otherError`
stands for any exception class not named in a handler of image.py
(network errors, PIL decode errors, binascii errors, ...). -/
inductive PyErr : Type
  | jsonDecodeError
  | valueError
  | attributeError
  | keyError
  | indexError
  | typeError
  | assertionError
  | otherError
deriving DecidableEq

/-- Python `"dimensions" not in m` for an arbitrary value `m`: key lookup on
a dict, substring test on a str, element equality on a list; `in` on
int/bool/None raises TypeError. -/
def pyContains (m : JValue) (key : String) : Except PyErr Bool :=
  match m with
  | .obj d => Except.ok (lookupKey d key).isSome
  | .str s => Except.ok (strContains s key)
  | .arr xs => Except.ok (xs.any (pyStrEq key))
  | _ => Except.error PyErr.typeError

/-- Python `m[key] = val` for an arbitrary value `m`: item assignment with a
string key succeeds only on a dict and raises TypeError otherwise. -/
def pySetItem (m : JValue) (key : String) (val : JValue) : Except PyErr JValue :=
  match m with
  | .obj d => Except.ok (JValue.obj (setKey d key val))
  | _ => Except.error PyErr.typeError

mutual

/-- Python `str(v)` for a value appearing inside an f-string: a str is
inserted verbatim, every other value is rendered with its repr. -/
def pyRepr : JValue → String
  | .null => "None"
  | .bool true => "True"
  | .bool false => "False"
  | .num n => toString n
  | .str s => "\x27" ++ s ++ "\x27"
  | .arr xs => "[" ++ pyReprList xs ++ "]"
  | .obj fs => "\x7b" ++ pyReprObj fs ++ "\x7d"

/-- Comma-separated reprs of the elements of a Python list. -/
def pyReprList : List JValue → String
  | [] => ""
  | [x] => pyRepr x
  | x :: y :: xs => pyRepr x ++ ", " ++ pyReprList (y :: xs)

/-- Comma-separated `'key': repr` pairs of a Python dict. -/
def pyReprObj : List (String × JValue) → String
  | [] => ""
  | [(k, v)] => "\x27" ++ k ++ "\x27: " ++ pyRepr v
  | (k, v) :: p :: xs => "\x27" ++ k ++ "\x27: " ++ pyRepr v ++ ", " ++ pyReprObj (p :: xs)

end

/-- Python f-string interpolation of a value: the string itself for a str,
its repr otherwise. -/
def pyStr : JValue → String
  | .str s => s
  | v => pyRepr v

/-- Outcome of `base64.b64decode(image_base64)` followed by
`Image.open(io.BytesIO(...))` in image.py lines 87-88: either the payload
decodes to an image with the given pixel width and height, or one of the
two calls raises (binascii.Error, PIL.UnidentifiedImageError, ...). -/
inductive ImageInput : Type
  | invalid : ImageInput
  | valid (width height : Nat) : ImageInput

/-- The value of `response.choices[0].message.content` as seen by
`json.loads` in image.py line 122: a string that parses as JSON, a string
that does not parse, a Python dict (test mocks, line 126), or a value of
any other type. -/
inductive MsgContent : Type
  | parsableStr (v : JValue)
  | unparsableStr
  | dictContent (d : JObj)
  | otherContent

/-- Outcome of the remote description call (image.py lines 98-118,
including the `response.choices[0].message` accesses): it either raises
some exception or yields a message content. -/
inductive RemoteOutcome : Type
  | raises (e : PyErr)
  | returns (c : MsgContent)

/-- The exception classes named in the inner handler of image.py line 145:
`(json.JSONDecodeError, ValueError, AttributeError, KeyError, IndexError)`. -/
def innerCaught : PyErr → Bool
  | .jsonDecodeError => true
  | .valueError => true
  | .attributeError => true
  | .keyError => true
  | .indexError => true
  | _ => false

/-- The string interpolation `f"{image.width}x{image.height}"`. -/
def dimStr (w h : Nat) : String :=
  toString w ++ "x" ++ toString h

/-- The fallback dict built by the inner handler (image.py lines 152-158):
description, type Unknown, and the decoded dimensions. -/
def fallbackInner (w h : Nat) : JObj :=
  [("description", JValue.str "An image from the document"),
   ("metadata", JValue.obj
     [("type", JValue.str "Unknown"),
      ("dimensions", JValue.str (dimStr w h))])]

/-- The fallback dict built by the outer handler (image.py lines 167-172):
description and type Unknown, no dimensions. -/
def fallbackOuter : JObj :=
  [("description", JValue.str "An image from the document"),
   ("metadata", JValue.obj [("type", JValue.str "Unknown")])]

/-- Image.py lines 136-143: add an empty `metadata` dict when the key is
absent, then fill `metadata.dimensions` with the decoded dimensions when
`"dimensions" not in result["metadata"]`; the membership test and the item
assignment follow Python semantics and can raise TypeError when the
existing `metadata` value is not a dict. The final `none` branch is
unreachable because the key was just inserted. -/
def ensureDims (d0 : JObj) (w h : Nat) : Except PyErr JObj := do
  let d := match lookupKey d0 "metadata" with
    | some _ => d0
    | none => setKey d0 "metadata" (JValue.obj [])
  match lookupKey d "metadata" with
  | some m =>
    let hasDims ← pyContains m "dimensions"
    if hasDims then Except.ok d
    else do
      let m2 ← pySetItem m "dimensions" (JValue.str (dimStr w h))
      Except.ok (setKey d "metadata" m2)
  | none => Except.ok d

/-- The body of the inner `try` of generate_image_description (image.py
lines 97-143), given the decoded dimensions: obtain the remote reply,
parse its content (`json.loads`, falling back to a dict-typed content,
else `ValueError("Invalid response format")`), require the result to be a
dict (else ValueError), then ensure metadata dimensions. -/
def innerBody (w h : Nat) (remote : RemoteOutcome) : Except PyErr JObj := do
  let c ← match remote with
    | .raises e => Except.error e
    | .returns c => Except.ok c
  let result ← match c with
    | .parsableStr v => Except.ok v
    | .dictContent d => Except.ok (JValue.obj d)
    | .unparsableStr => Except.error PyErr.valueError
    | .otherContent => Except.error PyErr.valueError
  match result with
  | .obj d => ensureDims d w h
  | _ => Except.error PyErr.valueError

/-- Image.py lines 74-172, generate_image_description: decode the image
(outer try), run the inner body; exceptions of the classes listed in line
145 produce the inner fallback (with dimensions), any other exception —
including a decode failure — reaches the outer `except Exception` and
produces the outer fallback (without dimensions). The image payload and
the remote call are abstracted by their outcomes. -/
def generate_image_description (img : ImageInput) (remote : RemoteOutcome) : JObj :=
  match img with
  | .invalid => fallbackOuter
  | .valid w h =>
    match innerBody w h remote with
    | .ok d => d
    | .error e => if innerCaught e then fallbackInner w h else fallbackOuter

example :
    generate_image_description (ImageInput.valid 1 1)
      (RemoteOutcome.returns (MsgContent.parsableStr (JValue.obj [("foo", JValue.str "bar")])))
    = [("foo", JValue.str "bar"),
       ("metadata", JValue.obj [("dimensions", JValue.str "1x1")])] := by
  rfl

example :
    generate_image_description (ImageInput.valid 2 3)
      (RemoteOutcome.returns MsgContent.unparsableStr) = fallbackInner 2 3 := by
  rfl

example :
    generate_image_description ImageInput.invalid
      (RemoteOutcome.raises PyErr.otherError) = fallbackOuter := by
  rfl

example :
    generate_image_description (ImageInput.valid 2 3)
      (RemoteOutcome.raises PyErr.otherError) = fallbackOuter := by
  rfl

example :
    generate_image_description (ImageInput.valid 2 3)
      (RemoteOutcome.raises PyErr.keyError) = fallbackInner 2 3 := by
  rfl

example :
    generate_image_description (ImageInput.valid 4 5)
      (RemoteOutcome.returns (MsgContent.parsableStr
        (JValue.obj [("description", JValue.str "d"), ("metadata", JValue.num 7)])))
    = fallbackOuter := by
  rfl

/-- One page of the OCR response; the code reads only its markdown
attribute (parser.py line 154). -/
structure Page : Type where
  markdown : String

/-- The OCR response shapes _generate_markdown distinguishes (parser.py
lines 149-161): an object that may expose a `pages` attribute, whose
parsed JSON dict may carry a top-level "markdown" entry, and whose
"blocks" entry — when present — is a list (`response_dict.get("blocks",
[])` defaults to the empty list). -/
structure OCRResponse : Type where
  pages : Option (List Page)
  markdownField : Option JValue
  blocks : Option (List JValue)

/-- Behaviour of the image pipeline for a given base64 payload value: the
outcome of decoding it and of the remote description call made for it.
Parametrising over this oracle abstracts `self.client` in parser.py. -/
def DescribeOracle : Type := JValue → ImageInput × RemoteOutcome

/-- The dict returned by the generate_image_description call the
normalizer makes for a base64 payload (parser.py lines 181-183). -/
def describeAt (oracle : DescribeOracle) (b64 : JValue) : JObj :=
  generate_image_description (oracle b64).1 (oracle b64).2

/-- The `markdown_parts` contributed by one block of the loop in parser.py
lines 166-198: a text block appends `block.get("text", "")` and a blank
line; an image block with a truthy `base64` payload appends the image
reference line, the italic description line (raising KeyError when the
description dict lacks "description"), and the metadata bullet list when
`image_description.get("metadata")` is truthy (`.items()` raising
AttributeError on a truthy non-dict); blocks of any other type append
nothing; `.get` on a non-dict block or non-dict image value raises
AttributeError. -/
def processBlock (oracle : DescribeOracle) (b : JValue) : Except PyErr (List JValue) :=
  match b with
  | .obj d =>
    match lookupKey d "type" with
    | some (JValue.str "text") =>
        Except.ok [(lookupKey d "text").getD (JValue.str ""), JValue.str "\n\n"]
    | some (JValue.str "image") =>
        match (lookupKey d "image").getD (JValue.obj []) with
        | .obj idd =>
          let image_base64 := (lookupKey idd "base64").getD (JValue.str "")
          if pyTruthy image_base64 then
            let image_description := describeAt oracle image_base64
            let refLine := JValue.str ("![Image](" ++
              pyStr ((lookupKey idd "url").getD (JValue.str "image_placeholder.png")) ++ ")\n")
            match lookupKey image_description "description" with
            | none => Except.error PyErr.keyError
            | some dv =>
              let descLine := JValue.str ("*Image Description: " ++ pyStr dv ++ "*\n\n")
              match lookupKey image_description "metadata" with
              | some mv =>
                if pyTruthy mv then
                  match mv with
                  | .obj md =>
                    Except.ok ([refLine, descLine, JValue.str "**Image Metadata:**\n"] ++
                      md.map (fun kv => JValue.str ("- " ++ kv.1 ++ ": " ++ pyStr kv.2 ++ "\n")) ++
                      [JValue.str "\n"])
                  | _ => Except.error PyErr.attributeError
                else Except.ok [refLine, descLine]
              | none => Except.ok [refLine, descLine]
          else Except.ok []
        | _ => Except.error PyErr.attributeError
    | _ => Except.ok []
  | _ => Except.error PyErr.attributeError

/-- The whole block loop of parser.py lines 166-198: concatenate the parts
of each block in original order, propagating the first exception. -/
def blocksParts (oracle : DescribeOracle) : List JValue → Except PyErr (List JValue)
  | [] => Except.ok []
  | b :: rest => do
      let p ← processBlock oracle b
      let r ← blocksParts oracle rest
      Except.ok (p ++ r)

/-- Python `"".join(markdown_parts)` (parser.py line 200): concatenate the
parts left to right, raising TypeError at the first non-str part. -/
def joinParts : List JValue → Except PyErr String
  | [] => Except.ok ""
  | JValue.str s :: rest => (joinParts rest).map (fun r => s ++ r)
  | _ :: _ => Except.error PyErr.typeError

/-- Parser.py lines 136-200, _generate_markdown: return
`ocr_response.pages[0].markdown` when the pages attribute exists and is
non-empty; otherwise return the top-level "markdown" entry of the parsed
dict when present; otherwise render the "blocks" list (default empty) and
join the collected parts. -/
def generateMarkdown (resp : OCRResponse) (oracle : DescribeOracle) :
    Except PyErr JValue :=
  match resp.pages with
  | some (p :: _) => Except.ok (JValue.str p.markdown)
  | _ =>
    match resp.markdownField with
    | some v => Except.ok v
    | none => do
        let parts ← blocksParts oracle (resp.blocks.getD [])
        let s ← joinParts parts
        Except.ok (JValue.str s)

/-- Python truthiness of an optional string, as used on `api_key` and the
result of `os.environ.get` in parser.py line 35: None and the empty string
are falsy. -/
def optTruthy : Option String → Bool
  | none => false
  | some s => s != ""

/-- Parser.py lines 28-40, MistralOCRParser.__init__: `self.api_key =
api_key or os.environ.get("MISTRAL_API_KEY")`, then raise ValueError when
the result is falsy; no client call is made before the check. Returns the
resolved key on success. -/
def parserInit (api_key envKey : Option String) : Except PyErr String :=
  let k := if optTruthy api_key then api_key else envKey
  match k with
  | some s => if s = "" then Except.error PyErr.valueError else Except.ok s
  | none => Except.error PyErr.valueError

/-- An input file of the batch driver, identified by its stem
(`pdf_file.stem` in utils.py line 54). -/
structure PdfFile : Type where
  stem : String
deriving DecidableEq

/-- The output path `output_dir / f"{pdf_file.stem}.md"` of utils.py line
54, rendered as a string (utils.py line 59). -/
def outputPathFor (outputDir : String) (f : PdfFile) : String :=
  outputDir ++ "/" ++ f.stem ++ ".md"

/-- The per-file loop of utils.py lines 51-63: for each file in order,
attempt `parser.parse_pdf`; on success append the output path, on any
exception log and skip. `proc` abstracts whether parse_pdf succeeds for a
given file. -/
def batchLoop (outputDir : String) (proc : PdfFile → Bool) :
    List PdfFile → List String
  | [] => []
  | f :: rest =>
      (if proc f then [outputPathFor outputDir f] else []) ++
        batchLoop outputDir proc rest

/-- Utils.py lines 12-64, batch_process_pdfs, after directory globbing:
with no matching files return the empty list before constructing the
parser; otherwise construct the parser (which may raise for a missing
credential) and run the per-file loop. -/
def batchProcessPdfs (api_key envKey : Option String) (outputDir : String)
    (files : List PdfFile) (proc : PdfFile → Bool) :
    Except PyErr (List String) :=
  if files.isEmpty then Except.ok []
  else
    match parserInit api_key envKey with
    | .error e => Except.error e
    | .ok _ => Except.ok (batchLoop outputDir proc files)

/-- Accessibility of the input file of structured_ocr: `image_path.is_file()`
false (image.py line 230), `image_path.read_bytes()` raising (line 233),
or readable. -/
inductive FileAccess : Type
  | missing : FileAccess
  | unreadable : FileAccess
  | readable : FileAccess

/-- The StructuredOCR record of image.py lines 59-67 (pydantic model or
plain dict): file name, topics, languages, and the OCR contents mapping. -/
structure StructuredRecord : Type where
  file_name : String
  topics : List String
  languages : List String
  ocr_contents : List (String × JValue)

/-- The fixed record built by the handler of image.py lines 274-279. -/
def defaultStructuredRecord (name : String) : StructuredRecord :=
  { file_name := name
    topics := ["document"]
    languages := ["English"]
    ocr_contents := [("text", JValue.str "OCR processing failed")] }

/-- Image.py lines 208-279, structured_ocr: assert the path is a file
(AssertionError propagates, line 230), read its bytes (an IO error
propagates, line 233), then run the guarded remote sequence — OCR call,
markdown extraction, structured chat parse — whose outcome `attempt`
abstracts everything inside the `try`: its parsed record on success, or
`none` when any part of it raises, in which case the fixed default record
is returned. -/
def structured_ocr (name : String) (fa : FileAccess)
    (attempt : Option StructuredRecord) : Except PyErr StructuredRecord :=
  match fa with
  | .missing => Except.error PyErr.assertionError
  | .unreadable => Except.error PyErr.otherError
  | .readable =>
      match attempt with
      | some r => Except.ok r
      | none => Except.ok (defaultStructuredRecord name)

/-- A concrete describe-oracle for concrete evaluations: every payload
decodes to a 1x1 image and the remote description call raises KeyError,
so the composer answers with the inner fallback dict. -/
def witnessOracle : DescribeOracle :=
  fun _ => (ImageInput.valid 1 1, RemoteOutcome.raises PyErr.keyError)

/-- A concrete text block, as in the spec example of section 8. -/
def wTextBlock : JValue :=
  JValue.obj [("type", JValue.str "text"), ("text", JValue.str "Hello")]

/-- A concrete image block with a non-empty base64 payload. -/
def wImageBlock : JValue :=
  JValue.obj [("type", JValue.str "image"),
    ("image", JValue.obj [("base64", JValue.str "QUJD")])]

/-- A block dict whose "type" entry is neither the string "text" nor the
string "image" (including an absent "type" entry): such blocks match no
branch of the loop in parser.py lines 169-198 and are skipped. Non-dict
blocks are not of this kind (they raise AttributeError at `.get`). -/
def unknownKind : JValue → Bool
  | .obj d =>
      match lookupKey d "type" with
      | some (JValue.str "text") => false
      | some (JValue.str "image") => false
      | _ => true
  | _ => false

theorem lookupKey_setKey_self (d : JObj) (k : String) (v : JValue) :
    lookupKey (setKey d k v) k = some v := by
  induction d with
  | nil => simp [setKey, lookupKey]
  | cons p rest ih =>
    obtain ⟨a, b⟩ := p
    by_cases h : a = k
    · simp [setKey, lookupKey, h]
    · simp [setKey, lookupKey, h, ih]

theorem setKey_of_lookup_none (d : JObj) (k : String) (v : JValue)
    (h : lookupKey d k = none) : setKey d k v = d ++ [(k, v)] := by
  induction d with
  | nil => simp [setKey]
  | cons p rest ih =>
    obtain ⟨a, b⟩ := p
    by_cases hak : a = k
    · simp [lookupKey, hak] at h
    · simp [lookupKey, hak] at h
      simp [setKey, hak, ih h]

theorem setKey_append_of_lookup_none (d : JObj) (k : String) (v v' : JValue)
    (h : lookupKey d k = none) :
    setKey (d ++ [(k, v)]) k v' = d ++ [(k, v')] := by
  induction d with
  | nil => simp [setKey]
  | cons p rest ih =>
    obtain ⟨a, b⟩ := p
    by_cases hak : a = k
    · simp [lookupKey, hak] at h
    · simp [lookupKey, hak] at h
      simp [setKey, hak, ih h]

theorem ensureDims_ok_metadata (d0 : JObj) (w h : Nat) (r : JObj)
    (hr : ensureDims d0 w h = Except.ok r) :
    (lookupKey r "metadata").isSome = true := by
  unfold ensureDims at hr
  cases hm : lookupKey d0 "metadata" with
  | some m =>
    simp only [hm] at hr
    cases hc : pyContains m "dimensions" with
    | error e => simp [hc, Bind.bind, Except.bind] at hr
    | ok b =>
      simp only [hc, Bind.bind, Except.bind] at hr
      cases b with
      | true =>
        simp only [if_pos rfl] at hr
        cases hr
        simp [hm]
      | false =>
        cases hs : pySetItem m "dimensions" (JValue.str (dimStr w h)) with
        | error e => simp [hs] at hr
        | ok m2 =>
          simp only [hs, Bool.false_eq_true, if_false, Except.ok.injEq] at hr
          subst hr
          simp [lookupKey_setKey_self]
  | none =>
    simp only [hm, lookupKey_setKey_self, Bind.bind, Except.bind] at hr
    simp only [pyContains, lookupKey, Option.isSome_none, Bool.false_eq_true, if_false,
      pySetItem, setKey, Except.ok.injEq] at hr
    subst hr
    simp [lookupKey_setKey_self]

theorem ensureDims_absent (d0 : JObj) (w h : Nat)
    (hm : lookupKey d0 "metadata" = none) :
    ensureDims d0 w h =
      Except.ok (d0 ++ [("metadata",
        JValue.obj [("dimensions", JValue.str (dimStr w h))])]) := by
  unfold ensureDims
  simp only [hm, lookupKey_setKey_self, Bind.bind, Except.bind,
    pyContains, lookupKey, Option.isSome_none, Bool.false_eq_true, if_false,
    pySetItem, setKey]
  rw [setKey_of_lookup_none d0 "metadata" _ hm,
    setKey_append_of_lookup_none d0 "metadata" _ _ hm]

theorem ensureDims_has_dims (d0 : JObj) (w h : Nat) (m : JObj) (v : JValue)
    (hm : lookupKey d0 "metadata" = some (JValue.obj m))
    (hd : lookupKey m "dimensions" = some v) :
    ensureDims d0 w h = Except.ok d0 := by
  unfold ensureDims
  simp [hm, pyContains, hd, Bind.bind, Except.bind]

theorem innerBody_parsable_obj (w h : Nat) (d : JObj) :
    innerBody w h (RemoteOutcome.returns (MsgContent.parsableStr (JValue.obj d)))
      = ensureDims d w h := by
  rfl

theorem innerBody_ok_metadata (w h : Nat) (remote : RemoteOutcome) (d : JObj)
    (hd : innerBody w h remote = Except.ok d) :
    (lookupKey d "metadata").isSome = true := by
  unfold innerBody at hd
  cases remote with
  | raises e => simp [Bind.bind, Except.bind] at hd
  | returns c =>
    cases c with
    | parsableStr v =>
      cases v with
      | obj d0 =>
        simp only [Bind.bind, Except.bind] at hd
        exact ensureDims_ok_metadata d0 w h d hd
      | null => simp [Bind.bind, Except.bind] at hd
      | bool b => simp [Bind.bind, Except.bind] at hd
      | num n => simp [Bind.bind, Except.bind] at hd
      | str s => simp [Bind.bind, Except.bind] at hd
      | arr xs => simp [Bind.bind, Except.bind] at hd
    | dictContent d0 =>
      simp only [Bind.bind, Except.bind] at hd
      exact ensureDims_ok_metadata d0 w h d hd
    | unparsableStr => simp [Bind.bind, Except.bind] at hd
    | otherContent => simp [Bind.bind, Except.bind] at hd

theorem gid_metadata_isSome (img : ImageInput) (remote : RemoteOutcome) :
    (lookupKey (generate_image_description img remote) "metadata").isSome = true := by
  cases img with
  | invalid => rfl
  | valid w h =>
    simp only [generate_image_description]
    cases hi : innerBody w h remote with
    | ok d => exact innerBody_ok_metadata w h remote d hi
    | error e =>
      show (lookupKey (if innerCaught e then fallbackInner w h else fallbackOuter)
        "metadata").isSome = true
      cases hce : innerCaught e
      · simp only [hce, Bool.false_eq_true, if_false]
        rfl
      · simp only [hce, if_true]
        rfl

theorem gid_raises (w h : Nat) (e : PyErr) :
    generate_image_description (ImageInput.valid w h) (RemoteOutcome.raises e)
      = if innerCaught e then fallbackInner w h else fallbackOuter := by
  unfold generate_image_description innerBody
  simp [Bind.bind, Except.bind]

theorem gid_parsable_obj (w h : Nat) (d : JObj) (r : JObj)
    (hr : ensureDims d w h = Except.ok r) :
    generate_image_description (ImageInput.valid w h)
      (RemoteOutcome.returns (MsgContent.parsableStr (JValue.obj d))) = r := by
  simp only [generate_image_description]
  rw [innerBody_parsable_obj, hr]

theorem batchLoop_eq_filter_map (outputDir : String) (proc : PdfFile → Bool)
    (files : List PdfFile) :
    batchLoop outputDir proc files
      = (files.filter proc).map (outputPathFor outputDir) := by
  induction files with
  | nil => rfl
  | cons f rest ih =>
    by_cases hf : proc f
    · simp [batchLoop, List.filter_cons, hf, ih]
    · simp [batchLoop, List.filter_cons, hf, ih]

theorem processBlock_unknown (oracle : DescribeOracle) (b : JValue)
    (hb : unknownKind b = true) : processBlock oracle b = Except.ok [] := by
  cases b with
  | null => simp [unknownKind] at hb
  | bool v => simp [unknownKind] at hb
  | num n => simp [unknownKind] at hb
  | str s => simp [unknownKind] at hb
  | arr xs => simp [unknownKind] at hb
  | obj d =>
    simp only [unknownKind] at hb
    simp only [processBlock]
    split
    · rename_i heq
      rw [heq] at hb
      simp at hb
    · rename_i heq
      rw [heq] at hb
      simp at hb
    · rfl

theorem blocksParts_filter_unknown (oracle : DescribeOracle) (bs : List JValue) :
    blocksParts oracle (bs.filter (fun b => !unknownKind b))
      = blocksParts oracle bs := by
  induction bs with
  | nil => rfl
  | cons b rest ih =>
    by_cases hb : unknownKind b
    · simp only [List.filter_cons, hb, Bool.not_true, Bool.false_eq_true, if_false]
      rw [ih]
      show blocksParts oracle rest = blocksParts oracle (b :: rest)
      simp only [blocksParts, processBlock_unknown oracle b hb, Bind.bind, Except.bind]
      cases blocksParts oracle rest <;> simp
    · have hb' : unknownKind b = false := by
        cases hbe : unknownKind b
        · rfl
        · exact absurd hbe hb
      simp only [List.filter_cons, hb', Bool.not_false, if_true]
      simp only [blocksParts, ih]

/-- C2: for every OCR response that exposes a non-empty pages list, the
normalizer's output equals pages[0].markdown exactly, with no further
processing, regardless of any blocks field also present in the response. -/
theorem claim2_pages_markdown_verbatim (resp : OCRResponse)
    (oracle : DescribeOracle) (p : Page) (ps : List Page)
    (h : resp.pages = some (p :: ps)) :
    generateMarkdown resp oracle = Except.ok (JValue.str p.markdown) := by
  simp only [generateMarkdown, h]

/-- Witness for C2: a response with one page whose markdown is "X" and a
stray blocks field normalizes to "X". -/
theorem claim2_witness :
    generateMarkdown
      { pages := some [{ markdown := "X" }]
        markdownField := none
        blocks := some [wTextBlock] } witnessOracle
      = Except.ok (JValue.str "X") :=
  claim2_pages_markdown_verbatim _ witnessOracle { markdown := "X" } [] rfl

/-- C8: with neither an explicit API key nor the environment variable set,
MistralOCRParser.__init__ raises ValueError (before any client call);
when either source supplies a non-empty key, construction succeeds with
that key. -/
theorem claim8_missing_credential (s : String) (env : Option String) :
    parserInit none none = Except.error PyErr.valueError
  ∧ (s ≠ "" → parserInit (some s) env = Except.ok s)
  ∧ (s ≠ "" → parserInit none (some s) = Except.ok s) := by
  refine ⟨rfl, ?_, ?_⟩
  · intro hs
    simp [parserInit, optTruthy, hs]
  · intro hs
    simp [parserInit, optTruthy, hs]

/-- Witness for C8 at the key "k". -/
theorem claim8_witness :
    parserInit (some "k") none = Except.ok "k"
  ∧ parserInit none (some "k") = Except.ok "k" :=
  ⟨(claim8_missing_credential "k" none).2.1 (by decide),
   (claim8_missing_credential "k" none).2.2 (by decide)⟩

/-- Counterexample to C6 as stated: for a missing input file, part of the
structured OCR sequence (the `is_file` assertion of image.py line 230)
fails, and structured_ocr propagates an AssertionError instead of
returning the fixed default record. -/
theorem claim6_counterexample :
    structured_ocr "img.png" FileAccess.missing none
      = Except.error PyErr.assertionError
  ∧ (Except.error PyErr.assertionError
      ≠ Except.ok (defaultStructuredRecord "img.png")) := by
  refine ⟨rfl, ?_⟩
  intro h
  exact Except.noConfusion h

/-- C6 amended: for an existing, readable image path, whenever any part of
the guarded remote structured OCR sequence fails, structured_ocr returns
the fixed default record (file name, topics=["document"],
languages=["English"], ocr_contents={"text": "OCR processing failed"})
rather than propagating the failure. -/
theorem claim6_amended (name : String) :
    structured_ocr name FileAccess.readable none
      = Except.ok (defaultStructuredRecord name) := by
  rfl

/-- C5: a failure while processing one file does not abort the batch: the
loop returns exactly the output paths of the successfully processed files;
for any non-empty key the whole driver does the same; and with 3 matching
files of which the second fails, the result holds the outputs of files 1
and 3 only. -/
theorem claim5_batch_skips_failures (outputDir : String) (proc : PdfFile → Bool)
    (files : List PdfFile) (envKey : Option String) (s : String) :
    batchLoop outputDir proc files
      = (files.filter proc).map (outputPathFor outputDir)
  ∧ (s ≠ "" → batchProcessPdfs (some s) envKey outputDir files proc
      = Except.ok ((files.filter proc).map (outputPathFor outputDir)))
  ∧ (∀ f1 f2 f3 : PdfFile, f1 ≠ f2 → f3 ≠ f2 →
      batchLoop outputDir (fun f => f != f2) [f1, f2, f3]
        = [outputPathFor outputDir f1, outputPathFor outputDir f3]) := by
  refine ⟨batchLoop_eq_filter_map outputDir proc files, ?_, ?_⟩
  · intro hs
    by_cases hf : files.isEmpty
    · have : files = [] := by simpa [List.isEmpty_iff] using hf
      subst this
      simp [batchProcessPdfs]
    · simp only [batchProcessPdfs, hf, Bool.false_eq_true, if_false]
      simp [parserInit, optTruthy, hs, batchLoop_eq_filter_map]
  · intro f1 f2 f3 h1 h3
    simp [batchLoop, h1, h3, outputPathFor]

/-- Witness for C5: three files a, b, c where b fails. -/
theorem claim5_witness :
    batchProcessPdfs (some "key") none "out"
      [{ stem := "a" }, { stem := "b" }, { stem := "c" }]
      (fun f => f != { stem := "b" })
      = Except.ok ["out/a.md", "out/c.md"]
  ∧ batchLoop "out" (fun f => f != { stem := "b" })
      [{ stem := "a" }, { stem := "b" }, { stem := "c" }]
      = ["out/a.md", "out/c.md"] :=
  ⟨(claim5_batch_skips_failures "out" (fun f => f != { stem := "b" })
      [{ stem := "a" }, { stem := "b" }, { stem := "c" }] none "key").2.1
      (by decide),
   (claim5_batch_skips_failures "out" (fun f => f != { stem := "b" })
      [] none "key").2.2 { stem := "a" } { stem := "b" } { stem := "c" }
      (by decide) (by decide)⟩

/-- C10: every path the batch driver returns is the output directory
joined with the input file's stem plus ".md", and the returned list
follows the enumeration order of the matching input files. -/
theorem claim10_output_path_shape (outputDir : String) (proc : PdfFile → Bool)
    (files : List PdfFile) :
    (∀ p ∈ batchLoop outputDir proc files,
      ∃ f ∈ files, proc f = true ∧ p = outputDir ++ "/" ++ f.stem ++ ".md")
  ∧ (batchLoop outputDir proc files).Sublist
      (files.map (outputPathFor outputDir)) := by
  constructor
  · intro p hp
    rw [batchLoop_eq_filter_map] at hp
    obtain ⟨f, hf, rfl⟩ := List.mem_map.mp hp
    obtain ⟨hmem, hproc⟩ := List.mem_filter.mp hf
    exact ⟨f, hmem, hproc, rfl⟩
  · rw [batchLoop_eq_filter_map]
    exact (List.filter_sublist files).map (outputPathFor outputDir)

/-- Witness for C10 at two files of which the second fails. -/
theorem claim10_witness :
    (∃ f ∈ ([{ stem := "a" }, { stem := "b" }] : List PdfFile),
      (fun g => g != ({ stem := "b" } : PdfFile)) f = true
        ∧ "out/a.md" = "out" ++ "/" ++ f.stem ++ ".md")
  ∧ (batchLoop "out" (fun g => g != { stem := "b" })
        [{ stem := "a" }, { stem := "b" }]).Sublist
      (([{ stem := "a" }, { stem := "b" }] : List PdfFile).map
        (outputPathFor "out")) :=
  ⟨(claim10_output_path_shape "out" (fun g => g != { stem := "b" })
      [{ stem := "a" }, { stem := "b" }]).1 "out/a.md" (by decide),
   (claim10_output_path_shape "out" (fun g => g != { stem := "b" })
      [{ stem := "a" }, { stem := "b" }]).2⟩

/-- C7: a block whose kind is neither text nor image contributes nothing
to the normalizer's output and raises no error, so the output equals the
output for the same block list with all unknown-kind blocks removed. -/
theorem claim7_unknown_blocks_skipped (oracle : DescribeOracle)
    (resp : OCRResponse) :
    (∀ b, unknownKind b = true → processBlock oracle b = Except.ok [])
  ∧ generateMarkdown resp oracle
      = generateMarkdown
          { resp with
            blocks := resp.blocks.map (List.filter (fun b => !unknownKind b)) }
          oracle := by
  refine ⟨processBlock_unknown oracle, ?_⟩
  obtain ⟨pages, mdf, blocks⟩ := resp
  cases pages with
  | some ps =>
    cases ps with
    | cons p rest => rfl
    | nil =>
      cases mdf with
      | some v => rfl
      | none =>
        cases blocks with
        | none => rfl
        | some bs =>
          simp [generateMarkdown, blocksParts_filter_unknown]
  | none =>
    cases mdf with
    | some v => rfl
    | none =>
      cases blocks with
      | none => rfl
      | some bs =>
        simp [generateMarkdown, blocksParts_filter_unknown]

/-- Witness for C7: a block of type "header" is skipped, leaving the
normalizer's output unchanged. -/
theorem claim7_witness :
    processBlock witnessOracle (JValue.obj [("type", JValue.str "header")])
      = Except.ok [] :=
  (claim7_unknown_blocks_skipped witnessOracle
    { pages := none, markdownField := none, blocks := none }).1
    (JValue.obj [("type", JValue.str "header")]) rfl

/-- C9: an image block whose base64 payload is absent or empty contributes
nothing to the normalizer's output: no image-description call is made (the
result holds for every oracle) and no lines are emitted and no error is
raised for it. -/
theorem claim9_empty_base64_skipped (oracle : DescribeOracle) (d : JObj)
    (hty : lookupKey d "type" = some (JValue.str "image"))
    (hb64 : lookupKey d "image" = none
      ∨ ∃ idd, lookupKey d "image" = some (JValue.obj idd)
          ∧ (lookupKey idd "base64" = none
             ∨ lookupKey idd "base64" = some (JValue.str ""))) :
    processBlock oracle (JValue.obj d) = Except.ok [] := by
  simp only [processBlock, hty]
  rcases hb64 with h | ⟨idd, hidd, hb⟩
  · simp [h, lookupKey, pyTruthy]
  · rcases hb with hb | hb <;> simp [hidd, hb, pyTruthy]

/-- Witness for C9: an image block whose base64 entry is the empty string
is skipped. -/
theorem claim9_witness :
    processBlock witnessOracle
      (JValue.obj [("type", JValue.str "image"),
        ("image", JValue.obj [("base64", JValue.str "")])])
      = Except.ok [] :=
  claim9_empty_base64_skipped witnessOracle
    [("type", JValue.str "image"),
     ("image", JValue.obj [("base64", JValue.str "")])]
    rfl (Or.inr ⟨[("base64", JValue.str "")], rfl, Or.inr rfl⟩)

/-- Counterexample to C1 as stated: when the remote call succeeds with the
well-formed JSON mapping `{"foo": "bar"}`, generate_image_description
returns that mapping with only metadata.dimensions injected — the result
has no "description" key (and its metadata has no "type" key). -/
theorem claim1_counterexample :
    lookupKey
      (generate_image_description (ImageInput.valid 1 1)
        (RemoteOutcome.returns (MsgContent.parsableStr
          (JValue.obj [("foo", JValue.str "bar")]))))
      "description" = none := by
  rfl

/-- C1 amended: generate_image_description never raises and its result
always contains a "metadata" key; any exception during decoding, the
remote call, or parsing is converted to the default fallback mapping
{description: "An image from the document", metadata: {type: "Unknown",
...}}, with dimensions present exactly when the exception class is one
the inner handler catches and omitted when it reaches the outer handler
(in particular when decoding itself failed); but when the remote reply
parses to a mapping, that mapping is returned and may lack "description"
and "metadata.type". -/
theorem claim1_amended (img : ImageInput) (remote : RemoteOutcome) :
    (lookupKey (generate_image_description img remote) "metadata").isSome = true
  ∧ (img = ImageInput.invalid →
      generate_image_description img remote = fallbackOuter)
  ∧ (∀ w h e, img = ImageInput.valid w h → remote = RemoteOutcome.raises e →
      generate_image_description img remote
        = if innerCaught e then fallbackInner w h else fallbackOuter)
  ∧ (∀ w h, img = ImageInput.valid w h →
      remote = RemoteOutcome.returns MsgContent.unparsableStr →
      generate_image_description img remote = fallbackInner w h) := by
  refine ⟨gid_metadata_isSome img remote, ?_, ?_, ?_⟩
  · rintro rfl
    rfl
  · rintro w h e rfl rfl
    exact gid_raises w h e
  · rintro w h rfl rfl
    rfl

/-- Witness for C1 at concrete failure modes: a decode failure, a network
error (uncaught class), a KeyError (caught class), and an unparsable
reply. -/
theorem claim1_witness :
    generate_image_description ImageInput.invalid
        (RemoteOutcome.raises PyErr.otherError) = fallbackOuter
  ∧ generate_image_description (ImageInput.valid 2 3)
        (RemoteOutcome.raises PyErr.keyError)
      = (if innerCaught PyErr.keyError then fallbackInner 2 3 else fallbackOuter)
  ∧ generate_image_description (ImageInput.valid 2 3)
        (RemoteOutcome.returns MsgContent.unparsableStr) = fallbackInner 2 3 :=
  ⟨(claim1_amended ImageInput.invalid (RemoteOutcome.raises PyErr.otherError)).2.1 rfl,
   (claim1_amended (ImageInput.valid 2 3)
      (RemoteOutcome.raises PyErr.keyError)).2.2.1 2 3 PyErr.keyError rfl rfl,
   (claim1_amended (ImageInput.valid 2 3)
      (RemoteOutcome.returns MsgContent.unparsableStr)).2.2.2 2 3 rfl rfl⟩

/-- C3: when the remote description call succeeds with a mapping lacking a
"metadata" key, generate_image_description appends an empty metadata
mapping filled with dimensions "<w>x<h>" from the locally decoded image;
a dimensions value already supplied by the remote call leaves the mapping
unchanged. -/
theorem claim3_metadata_dimensions (w h : Nat) (d : JObj) :
    (lookupKey d "metadata" = none →
      generate_image_description (ImageInput.valid w h)
        (RemoteOutcome.returns (MsgContent.parsableStr (JValue.obj d)))
        = d ++ [("metadata",
            JValue.obj [("dimensions", JValue.str (dimStr w h))])])
  ∧ (∀ m v, lookupKey d "metadata" = some (JValue.obj m) →
      lookupKey m "dimensions" = some v →
      generate_image_description (ImageInput.valid w h)
        (RemoteOutcome.returns (MsgContent.parsableStr (JValue.obj d))) = d) := by
  constructor
  · intro hm
    exact gid_parsable_obj w h d _ (ensureDims_absent d w h hm)
  · intro m v hm hd
    exact gid_parsable_obj w h d d (ensureDims_has_dims d w h m v hm hd)

/-- Witness for C3: a reply lacking metadata gets dimensions 1x1 injected;
a reply already carrying metadata.dimensions "9x9" is returned unchanged. -/
theorem claim3_witness :
    generate_image_description (ImageInput.valid 1 1)
        (RemoteOutcome.returns (MsgContent.parsableStr
          (JValue.obj [("description", JValue.str "a chart")])))
      = [("description", JValue.str "a chart"),
         ("metadata", JValue.obj [("dimensions", JValue.str "1x1")])]
  ∧ generate_image_description (ImageInput.valid 1 1)
        (RemoteOutcome.returns (MsgContent.parsableStr
          (JValue.obj [("metadata",
            JValue.obj [("dimensions", JValue.str "9x9")])])))
      = [("metadata", JValue.obj [("dimensions", JValue.str "9x9")])] :=
  ⟨(claim3_metadata_dimensions 1 1 [("description", JValue.str "a chart")]).1 rfl,
   (claim3_metadata_dimensions 1 1
      [("metadata", JValue.obj [("dimensions", JValue.str "9x9")])]).2
      [("dimensions", JValue.str "9x9")] (JValue.str "9x9") rfl rfl⟩

/-- C4: for a response with neither pre-rendered page markdown nor a
top-level markdown entry, the normalizer renders the blocks list in
original order as the join of per-block contributions; a text block
contributes its literal content followed by a blank line; an image block
with a truthy base64 payload contributes, after the image-description
call, the image reference line, the italic description line, and — the
returned metadata being present and non-empty — the bulleted metadata
list. -/
theorem claim4_blocks_concatenation (resp : OCRResponse)
    (oracle : DescribeOracle) (bs : List JValue)
    (hp : resp.pages = none) (hm : resp.markdownField = none)
    (hb : resp.blocks = some bs) :
    generateMarkdown resp oracle
      = ((blocksParts oracle bs).bind joinParts).map JValue.str
  ∧ (∀ b rest, blocksParts oracle (b :: rest)
      = (processBlock oracle b).bind
          (fun p => (blocksParts oracle rest).map (fun r => p ++ r)))
  ∧ (∀ (d : JObj) (s : String),
      lookupKey d "type" = some (JValue.str "text") →
      lookupKey d "text" = some (JValue.str s) →
      processBlock oracle (JValue.obj d)
        = Except.ok [JValue.str s, JValue.str "\n\n"])
  ∧ (∀ (d idd : JObj) (b64v dv : JValue) (md : JObj),
      lookupKey d "type" = some (JValue.str "image") →
      lookupKey d "image" = some (JValue.obj idd) →
      lookupKey idd "base64" = some b64v →
      pyTruthy b64v = true →
      lookupKey (describeAt oracle b64v) "description" = some dv →
      lookupKey (describeAt oracle b64v) "metadata" = some (JValue.obj md) →
      md ≠ [] →
      processBlock oracle (JValue.obj d)
        = Except.ok
            ([JValue.str ("![Image](" ++
                pyStr ((lookupKey idd "url").getD
                  (JValue.str "image_placeholder.png")) ++ ")\n"),
              JValue.str ("*Image Description: " ++ pyStr dv ++ "*\n\n"),
              JValue.str "**Image Metadata:**\n"] ++
             md.map (fun kv =>
               JValue.str ("- " ++ kv.1 ++ ": " ++ pyStr kv.2 ++ "\n")) ++
             [JValue.str "\n"])) := by
  refine ⟨?_, ?_, ?_, ?_⟩
  · simp only [generateMarkdown, hp, hm, hb, Option.getD_some]
    cases hbp : blocksParts oracle bs with
    | error e => simp [Bind.bind, Except.bind, Except.map]
    | ok parts =>
      cases hj : joinParts parts with
      | error e => simp [hj, Bind.bind, Except.bind, Except.map]
      | ok s => simp [hj, Bind.bind, Except.bind, Except.map]
  · intro b rest
    simp only [blocksParts]
    cases processBlock oracle b with
    | error e => simp [Bind.bind, Except.bind, Except.map]
    | ok p =>
      cases blocksParts oracle rest with
      | error e => simp [Bind.bind, Except.bind, Except.map]
      | ok r => simp [Bind.bind, Except.bind, Except.map]
  · intro d s h1 h2
    simp [processBlock, h1, h2]
  · intro d idd b64v dv md h1 h2 h3 h4 h5 h6 hmd
    simp only [processBlock, h1, h2, Option.getD_some, h3, h4, if_true, h5, h6]
    have : pyTruthy (JValue.obj md) = true := by
      simp [pyTruthy, List.isEmpty_iff, hmd]
    simp [this]

/-- Witness for C4: the spec example block list (a "Hello" text block and
an image block) under the concrete oracle whose description call raises,
so the composer answers with its fallback. -/
theorem claim4_witness :
    generateMarkdown
        { pages := none, markdownField := none,
          blocks := some [wTextBlock, wImageBlock] } witnessOracle
      = ((blocksParts witnessOracle [wTextBlock, wImageBlock]).bind
          joinParts).map JValue.str
  ∧ processBlock witnessOracle wTextBlock
      = Except.ok [JValue.str "Hello", JValue.str "\n\n"]
  ∧ processBlock witnessOracle wImageBlock
      = Except.ok
          [JValue.str "![Image](image_placeholder.png)\n",
           JValue.str "*Image Description: An image from the document*\n\n",
           JValue.str "**Image Metadata:**\n",
           JValue.str "- type: Unknown\n",
           JValue.str "- dimensions: 1x1\n",
           JValue.str "\n"] := by
  have h := claim4_blocks_concatenation
    { pages := none, markdownField := none,
      blocks := some [wTextBlock, wImageBlock] }
    witnessOracle [wTextBlock, wImageBlock] rfl rfl rfl
  refine ⟨h.1, ?_, ?_⟩
  · exact h.2.2.1 [("type", JValue.str "text"), ("text", JValue.str "Hello")]
      "Hello" rfl rfl
  · exact h.2.2.2
      [("type", JValue.str "image"),
       ("image", JValue.obj [("base64", JValue.str "QUJD")])]
      [("base64", JValue.str "QUJD")]
      (JValue.str "QUJD") (JValue.str "An image from the document")
      [("type", JValue.str "Unknown"), ("dimensions", JValue.str "1x1")]
      rfl rfl rfl rfl rfl rfl (by simp)

end MistralOCR
